import Mathlib

/-!
# Verification of the Expense Analytics Engine

Shallow embedding of the analytics page (`pages/3_Analytics.py`) and the
daily-entry submit handler (`pages/1_Daily_Entry.py`) of the expense
tracker.

Modelling conventions:
* Dates are integer day numbers; day 0 falls on a Monday, so pandas'
  `dt.dayofweek` (Monday = 0) is `d % 7`.  Time-of-day is ignored: every
  timestamp sits at midnight of its day.
* Monetary amounts are exact rationals.  An IEEE-754 division whose result
  is NaN or ±infinity is modelled explicitly: a value that is not a finite
  number is `Option.none`, and a comparison such as `inf > 2` is translated
  to the rational condition it is equivalent to at that point.
* pandas `Series.std()` uses `ddof=1` (sample standard deviation) and
  returns NaN on series of length ≤ 1; the variance is therefore an
  `Option ℚ`, `none` standing for NaN.  To stay inside the rationals the
  z-score comparison `|x - mean| / sqrt v > t` is expressed by the
  equivalent squared form `(x - mean)^2 > t^2 * v` whenever `v > 0`
  (see `zscore_sq_bridge` below for the justification over ℝ).
-/

/-- One row of the `daily_expenses` table: `pages/1_Daily_Entry.py` writes
`expense_date, transport, food, data, other`; `pages/3_Analytics.py` reads
the same columns. -/
structure ExpenseRecord where
  expense_date : ℤ
  transport : ℚ
  food : ℚ
  data : ℚ
  other : ℚ
deriving DecidableEq

/-- Row total: `expenses["total"] = expenses[category_cols].sum(axis=1)`
(`3_Analytics.py` line 266). -/
def ExpenseRecord.total (r : ExpenseRecord) : ℚ :=
  r.transport + r.food + r.data + r.other

/-- Range filter (`3_Analytics.py` lines 175-179 and 277-280):
keep rows with `start <= expense_date <= stop`, both ends inclusive. -/
def filterRange (rs : List ExpenseRecord) (start stop : ℤ) : List ExpenseRecord :=
  rs.filter (fun r => decide (start ≤ r.expense_date ∧ r.expense_date ≤ stop))

/-- Line 307: `burn_rate = (weekly_spend / weekly_budget) * 100 if weekly_budget > 0 else 0`
(`3_Analytics.py` line 307). -/
def burn_rate (weekly_spend weekly_budget : ℚ) : ℚ :=
  if weekly_budget > 0 then weekly_spend / weekly_budget * 100 else 0

/-- The five spending-behavior labels returned by
`categorize_spending_behavior` (`3_Analytics.py` lines 62-76).  The
`except` fallback label is unreachable in this embedding because rational
comparisons cannot raise. -/
inductive Behavior where
  | overspending
  | nearLimit
  | volatile
  | frugal
  | balanced
deriving DecidableEq

/-- Function `categorize_spending_behavior(avg_daily, volatility, burn_rate)`
(`3_Analytics.py` lines 62-76): an if/elif cascade, first match wins. -/
def categorize_spending_behavior (avg_daily volatility burn_rate : ℚ) : Behavior :=
  if burn_rate > 120 then .overspending
  else if burn_rate > 90 then .nearLimit
  else if volatility > avg_daily * (7/10) then .volatile
  else if avg_daily < 20 then .frugal
  else .balanced

/-- Claim C6: `categorize_spending_behavior` evaluates its rules in the
stated precedence with first match winning; in particular a burn rate of
exactly 120 yields Near Limit, not Overspending, for every average daily
spend and volatility. -/
theorem c6_classify_precedence :
    (∀ a v : ℚ, categorize_spending_behavior a v 120 = .nearLimit) ∧
    (∀ a v b : ℚ, 120 < b → categorize_spending_behavior a v b = .overspending) ∧
    (∀ a v b : ℚ, b ≤ 120 → 90 < b → categorize_spending_behavior a v b = .nearLimit) ∧
    (∀ a v b : ℚ, b ≤ 90 → a * (7/10) < v → categorize_spending_behavior a v b = .volatile) ∧
    (∀ a v b : ℚ, b ≤ 90 → v ≤ a * (7/10) → a < 20 → categorize_spending_behavior a v b = .frugal) ∧
    (∀ a v b : ℚ, b ≤ 90 → v ≤ a * (7/10) → 20 ≤ a → categorize_spending_behavior a v b = .balanced) := by
  refine ⟨fun a v => ?_, fun a v b h1 => ?_, fun a v b h1 h2 => ?_,
    fun a v b h1 h2 => ?_, fun a v b h1 h2 h3 => ?_, fun a v b h1 h2 h3 => ?_⟩ <;>
  · simp only [categorize_spending_behavior]
    split_ifs <;> first | rfl | linarith

/-- Witness for C6: concrete classifications, each obtained by applying
`c6_classify_precedence` at explicit inputs. -/
theorem c6_classify_precedence_witness :
    categorize_spending_behavior 50 5 120 = .nearLimit ∧
    categorize_spending_behavior 50 5 130 = .overspending ∧
    categorize_spending_behavior 50 5 100 = .nearLimit ∧
    categorize_spending_behavior 50 40 80 = .volatile ∧
    categorize_spending_behavior 10 5 80 = .frugal ∧
    categorize_spending_behavior 50 5 80 = .balanced :=
  ⟨c6_classify_precedence.1 50 5,
   c6_classify_precedence.2.1 50 5 130 (by norm_num),
   c6_classify_precedence.2.2.1 50 5 100 (by norm_num) (by norm_num),
   c6_classify_precedence.2.2.2.1 50 40 80 (by norm_num) (by norm_num),
   c6_classify_precedence.2.2.2.2.1 10 5 80 (by norm_num) (by norm_num) (by norm_num),
   c6_classify_precedence.2.2.2.2.2 50 5 80 (by norm_num) (by norm_num) (by norm_num)⟩

/-- Claim C7: `burn_rate` returns 0 whenever the weekly budget is ≤ 0,
returns 0 for zero spend against any positive budget, and otherwise equals
spend / budget × 100. -/
theorem c7_burn_rate_guards :
    (∀ x b : ℚ, b ≤ 0 → burn_rate x b = 0) ∧
    (∀ b : ℚ, 0 < b → burn_rate 0 b = 0) ∧
    (∀ x b : ℚ, 0 < b → burn_rate x b = x / b * 100) := by
  refine ⟨fun x b hb => ?_, fun b hb => ?_, fun x b hb => ?_⟩
  · simp only [burn_rate, if_neg (not_lt.mpr hb)]
  · simp [burn_rate, hb]
  · simp only [burn_rate, if_pos hb]

/-- Witness for C7: `c7_burn_rate_guards` applied at explicit inputs. -/
theorem c7_burn_rate_guards_witness :
    burn_rate 500 0 = 0 ∧ burn_rate 500 (-3) = 0 ∧ burn_rate 0 1000 = 0 ∧
    burn_rate 1200 1000 = 120 :=
  ⟨c7_burn_rate_guards.1 500 0 le_rfl,
   c7_burn_rate_guards.1 500 (-3) (by norm_num),
   c7_burn_rate_guards.2.1 1000 (by norm_num),
   by rw [c7_burn_rate_guards.2.2 1200 1000 (by norm_num)]; norm_num⟩

/-- Arithmetic mean of a pandas series, `s.mean()`: sum divided by length
(only ever evaluated on non-empty series in this development). -/
def mean (xs : List ℚ) : ℚ := xs.sum / (xs.length : ℚ)

/-- pandas `s.std()` with the default `ddof=1`, kept as the sample
variance `Σ (x - mean)² / (n - 1)` so the development stays inside ℚ;
`none` models the NaN returned on series of length ≤ 1. -/
def sampleVar (xs : List ℚ) : Option ℚ :=
  if xs.length ≤ 1 then none
  else some (((xs.map (fun x => (x - mean xs)^2)).sum) / ((xs.length : ℚ) - 1))

/-- The guard `anomaly_data["total"].std() > 0` (`3_Analytics.py` line
678); a NaN standard deviation compares false. -/
def stdPos (xs : List ℚ) : Bool :=
  match sampleVar xs with
  | none => false
  | some v => decide (0 < v)

/-- The sample variance with NaN collapsed to 0 (only read under
`stdPos = true`, where it is the genuine variance). -/
def varOf (xs : List ℚ) : ℚ := (sampleVar xs).getD 0

/-- Line 682: `threshold = anomaly_sensitivity / 5` (`3_Analytics.py` line 682). -/
def threshold (sensitivity : ℚ) : ℚ := sensitivity / 5

/-- Lines 677-683: `std = s.std() if s.std() > 0 else 1`,
`z_score = (x - mean) / std`, `is_anomaly = abs(z_score) > threshold`.
When the std is positive, `|x - mean| / sqrt v > t` is written in the
equivalent squared form `(x - mean)² > t² · v` (see `zscore_sq_bridge`);
when the std is 0 or NaN the code substitutes `std = 1`, giving
`|x - mean| > t`. -/
def isAnomaly (xs : List ℚ) (t x : ℚ) : Bool :=
  if stdPos xs then decide ((x - mean xs)^2 > t^2 * varOf xs)
  else decide (|x - mean xs| > t)

/-- Justification for the squared z-score form used in `isAnomaly`: over
the reals, for a positive variance `v` and nonnegative threshold `t`,
`(x - m)² > t² · v` is equivalent to `|x - m| / sqrt v > t`. -/
theorem zscore_sq_bridge (x t v : ℝ) (hv : 0 < v) (ht : 0 ≤ t) :
    t^2 * v < x^2 ↔ t < |x| / Real.sqrt v := by
  rw [lt_div_iff₀ (Real.sqrt_pos.mpr hv)]
  have h1 : t^2 * v = (t * Real.sqrt v)^2 := by
    rw [mul_pow, Real.sq_sqrt hv.le]
  rw [h1, ← sq_abs x]
  exact ⟨fun h => lt_of_pow_lt_pow_left₀ 2 (abs_nonneg x) h,
    fun h => pow_lt_pow_left₀ h (mul_nonneg ht (Real.sqrt_nonneg v)) (by norm_num)⟩

/-- Earliest expense date in the frame (pandas `resample("D")` spans its
grid from the earliest to the latest date present). -/
def minDate : List ExpenseRecord → ℤ
  | [] => 0
  | r :: rs => rs.foldl (fun m x => min m x.expense_date) r.expense_date

/-- Latest expense date in the frame. -/
def maxDate : List ExpenseRecord → ℤ
  | [] => 0
  | r :: rs => rs.foldl (fun m x => max m x.expense_date) r.expense_date

/-- Grouped sum `filtered.groupby("expense_date")["total"].sum()` at one
day: sum of `total` over the rows of that day (0 for a day with no row). -/
def dailyTotal (rs : List ExpenseRecord) (d : ℤ) : ℚ :=
  ((rs.filter (fun r => decide (r.expense_date = d))).map ExpenseRecord.total).sum

/-- The calendar-day grid of `resample("D")`: every day from the earliest
to the latest date present in the frame. -/
def gridDays (rs : List ExpenseRecord) : List ℤ :=
  (List.range (maxDate rs - minDate rs + 1).toNat).map (fun i => minDate rs + i)

/-- Series `anomaly_data` (`3_Analytics.py` lines 672-674):
`groupby("expense_date")["total"].sum().resample("D").sum().fillna(0)` —
one entry per calendar day between the first and last date present,
missing days filled with 0. -/
def filledSeries (rs : List ExpenseRecord) : List ℚ :=
  (gridDays rs).map (dailyTotal rs)

/-- The grid days flagged `is_anomaly` (line 683). -/
def anomalousDates (rs : List ExpenseRecord) (t : ℚ) : List ℤ :=
  (gridDays rs).filter (fun d => isAnomaly (filledSeries rs) t (dailyTotal rs d))

/-- The three-record scenario of claim C3: food expenses of 50, 10 and
500 on 2024-01-01, 2024-01-02 and 2024-01-03 (days 0, 1, 2; 2024-01-01
is a Monday). -/
def c3records : List ExpenseRecord :=
  [⟨0, 0, 50, 0, 0⟩, ⟨1, 0, 10, 0, 0⟩, ⟨2, 0, 500, 0, 0⟩]

/-- Evaluation of the C3 scenario's zero-filled daily series. -/
theorem c3_filledSeries_eval : filledSeries c3records = [50, 10, 500] := by
  have hg : gridDays c3records = [0, 1, 2] := by decide
  rw [filledSeries, hg]
  norm_num [dailyTotal, c3records, ExpenseRecord.total, List.filter]

/-- Claim C3 as stated is false on the code: the code computes the sample
standard deviation (`ddof=1`), whose square exceeds 260.3², so the std is
not approximately 220.3 (that value is the population std), and the
z-score of 2024-01-03 is below 1.2, not approximately 1.42.  Concretely,
the sample variance of the series [50, 10, 500] is 222100/3 ≈ 74033.33
(std ≈ 272.09), and (500 − mean)² < 1.2² · variance. -/
theorem c3_counterexample :
    sampleVar (filledSeries c3records) = some (222100/3) ∧
    ((2603/10 : ℚ))^2 < 222100/3 ∧
    (500 - mean (filledSeries c3records))^2 < (6/5)^2 * (222100/3) := by
  rw [c3_filledSeries_eval]
  norm_num [sampleVar, mean]

/-- Claim C3, amended: for the records [(2024-01-01, food=50),
(2024-01-02, food=10), (2024-01-03, food=500)] and sensitivity 5
(threshold 1), anomaly detection flags exactly the day 2024-01-03
(day 2): the mean is 560/3 ≈ 186.67, the sample variance is
222100/3 (std ≈ 272.1), and the z-score of day 2 is ≈ 1.15 > 1.0;
the other two days are not flagged. -/
theorem c3_amended :
    anomalousDates c3records (threshold 5) = [2] ∧
    mean (filledSeries c3records) = 560/3 ∧
    sampleVar (filledSeries c3records) = some (222100/3) := by
  have hg : gridDays c3records = [0, 1, 2] := by decide
  refine ⟨?_, ?_, ?_⟩
  · rw [anomalousDates, hg, c3_filledSeries_eval]
    norm_num [dailyTotal, c3records, ExpenseRecord.total, List.filter,
      isAnomaly, stdPos, sampleVar, varOf, mean, threshold]
  · rw [c3_filledSeries_eval]; norm_num [mean]
  · rw [c3_filledSeries_eval]; norm_num [sampleVar, mean]

/-- The mean of a non-empty constant series is the constant. -/
theorem mean_const (xs : List ℚ) (c : ℚ) (hne : xs ≠ []) (hc : ∀ x ∈ xs, x = c) :
    mean xs = c := by
  have hlen : (xs.length : ℚ) ≠ 0 := by
    have := List.length_pos.mpr hne
    positivity
  rw [mean, List.sum_eq_card_nsmul xs c hc, nsmul_eq_mul,
    mul_comm, mul_div_assoc, div_self hlen, mul_one]

/-- The sample variance of a constant series is 0 (length ≥ 2) or NaN
(length ≤ 1). -/
theorem sampleVar_const (xs : List ℚ) (c : ℚ) (hc : ∀ x ∈ xs, x = c) :
    sampleVar xs = none ∨ sampleVar xs = some 0 := by
  by_cases hlen : xs.length ≤ 1
  · left; simp [sampleVar, hlen]
  · right
    have hne : xs ≠ [] := by
      intro h; subst h; simp at hlen
    have hm := mean_const xs c hne hc
    have hz : (xs.map (fun x => (x - mean xs)^2)).sum = 0 := by
      apply List.sum_eq_zero
      intro y hy
      obtain ⟨x, hx, rfl⟩ := List.mem_map.mp hy
      rw [hc x hx, hm, sub_self]
      ring
    simp [sampleVar, hlen, hz]

/-- Claim C8: for every constant daily series (all values equal) and
every sensitivity in [1, 10], anomaly detection flags no day: the sample
standard deviation is 0 (or NaN for length ≤ 1), so the code substitutes
`std = 1`, every z-score `(x − mean)/1` is 0, and no division blow-up
occurs. -/
theorem c8_constant_no_anomaly (xs : List ℚ) (c s : ℚ)
    (hc : ∀ x ∈ xs, x = c) (hs1 : 1 ≤ s) (_hs10 : s ≤ 10) :
    stdPos xs = false ∧
    (∀ x ∈ xs, (x - mean xs) / 1 = 0) ∧
    (∀ x ∈ xs, isAnomaly xs (threshold s) x = false) := by
  have hvar := sampleVar_const xs c hc
  have hstd : stdPos xs = false := by
    rcases hvar with h | h <;> simp [stdPos, h]
  have hmean : ∀ x ∈ xs, x - mean xs = 0 := by
    intro x hx
    have hne : xs ≠ [] := by
      intro h; subst h; exact absurd hx (List.not_mem_nil x)
    rw [hc x hx, mean_const xs c hne hc, sub_self]
  refine ⟨hstd, fun x hx => by rw [hmean x hx]; norm_num, fun x hx => ?_⟩
  rw [isAnomaly, hstd]
  simp only [Bool.false_eq_true, if_false, decide_eq_false_iff_not, not_lt]
  rw [hmean x hx]
  have : 0 < threshold s := by
    rw [threshold]; linarith
  simp [le_of_lt this]

/-- Witness for C8: `c8_constant_no_anomaly` applied to the constant
series [7, 7, 7] with sensitivity 5. -/
theorem c8_constant_no_anomaly_witness :
    stdPos [(7:ℚ), 7, 7] = false ∧
    isAnomaly [(7:ℚ), 7, 7] (threshold 5) 7 = false :=
  ⟨(c8_constant_no_anomaly [(7:ℚ), 7, 7] 7 5 (by norm_num) (by norm_num)
      (by norm_num)).1,
   (c8_constant_no_anomaly [(7:ℚ), 7, 7] 7 5 (by norm_num) (by norm_num)
      (by norm_num)).2.2 7 (by norm_num)⟩

/-- The per-category totals `cat_totals["Amount"]` (`3_Analytics.py` line
486): `filtered[["transport", "food", "data", "other"]].sum()`. -/
def catAmounts (rs : List ExpenseRecord) : List ℚ :=
  [(rs.map (·.transport)).sum, (rs.map (·.food)).sum,
   (rs.map (·.data)).sum, (rs.map (·.other)).sum]

/-- Denominator `cat_totals["Amount"].sum()` (line 488): the denominator of the
percentage computation. -/
def amountTotal (rs : List ExpenseRecord) : ℚ := (catAmounts rs).sum

/-- Round half to even on ℚ, the tie rule of numpy/pandas `round`. -/
def rhe (q : ℚ) : ℤ :=
  if q - ⌊q⌋ < 1/2 then ⌊q⌋
  else if 1/2 < q - ⌊q⌋ then ⌊q⌋ + 1
  else if Even ⌊q⌋ then ⌊q⌋ else ⌊q⌋ + 1

/-- pandas `.round(1)`: round to one decimal digit. -/
def round1 (q : ℚ) : ℚ := (rhe (q * 10) : ℚ) / 10

/-- Line 488: `cat_totals["Percentage"] = (Amount / Amount.sum() * 100).round(1)`
(line 488).  When the total is 0, every amount is divided by 0: in IEEE
arithmetic `0/0` is NaN and `a/0` is ±infinity for `a ≠ 0`, so the result
is never a (finite) number; this is modelled by `none`. -/
def percentages (rs : List ExpenseRecord) : List (Option ℚ) :=
  (catAmounts rs).map (fun a =>
    if amountTotal rs = 0 then none
    else some (round1 (a / amountTotal rs * 100)))

/-- Rounding half to even moves a value by at most 1/2. -/
theorem rhe_err (q : ℚ) : |(rhe q : ℚ) - q| ≤ 1/2 := by
  have h1 : (⌊q⌋ : ℚ) ≤ q := Int.floor_le q
  have h2 : q < ⌊q⌋ + 1 := Int.lt_floor_add_one q
  rw [rhe]
  split_ifs <;> rw [abs_le] <;> constructor <;> push_cast <;> linarith

/-- Rounding to one decimal digit moves a value by at most 1/20. -/
theorem round1_err (q : ℚ) : |round1 q - q| ≤ 1/20 := by
  have h := rhe_err (q * 10)
  rw [abs_le] at h ⊢
  rw [round1]
  constructor <;> [linarith [h.1]; linarith [h.2]]

/-- Four values rounded to one decimal each drift from their exact sum by
at most 4 · 1/20 = 1/5. -/
theorem round1_sum4 (x1 x2 x3 x4 : ℚ) (h : x1 + x2 + x3 + x4 = 100) :
    |round1 x1 + round1 x2 + round1 x3 + round1 x4 - 100| ≤ 1/5 := by
  have h1 := round1_err x1
  have h2 := round1_err x2
  have h3 := round1_err x3
  have h4 := round1_err x4
  rw [abs_le] at h1 h2 h3 h4 ⊢
  constructor <;> linarith [h1.1, h1.2, h2.1, h2.2, h3.1, h3.2, h4.1, h4.2]

/-- Claim C2 as stated is false on the code: for a record set whose range
total is 0 (a single all-zero row), the percentage column is `0/0 * 100`,
which is NaN in float arithmetic, not 0 — the division by zero is not
guarded. -/
theorem c2_counterexample :
    amountTotal [⟨0, 0, 0, 0, 0⟩] = 0 ∧
    percentages [⟨0, 0, 0, 0, 0⟩] ≠ [some 0, some 0, some 0, some 0] := by
  constructor
  · norm_num [amountTotal, catAmounts]
  · norm_num [percentages, catAmounts, amountTotal]
    exact fun h => Option.noConfusion h

/-- Claim C2, amended: when the range total is strictly positive the four
rounded percentages sum to 100 up to rounding (within 1/5 of a percent);
when the range total is 0 every percentage is NaN (the unguarded `0/0`),
not 0. -/
theorem c2_percentages (rs : List ExpenseRecord) :
    (0 < amountTotal rs →
      |((percentages rs).map (fun o => o.getD 0)).sum - 100| ≤ 1/5) ∧
    (amountTotal rs = 0 → percentages rs = [none, none, none, none]) := by
  constructor
  · intro hpos
    have hne : amountTotal rs ≠ 0 := ne_of_gt hpos
    have hT : amountTotal rs =
        (rs.map (·.transport)).sum + ((rs.map (·.food)).sum +
          ((rs.map (·.data)).sum + ((rs.map (·.other)).sum + 0))) := by
      simp [amountTotal, catAmounts]
    simp only [percentages, catAmounts, if_neg hne, List.map_cons,
      List.map_nil, Option.getD_some, List.sum_cons, List.sum_nil]
    have hs :
        (rs.map (·.transport)).sum / amountTotal rs * 100 +
          ((rs.map (·.food)).sum / amountTotal rs * 100 +
            ((rs.map (·.data)).sum / amountTotal rs * 100 +
              ((rs.map (·.other)).sum / amountTotal rs * 100 + 0))) = 100 := by
      field_simp
      linarith [hT]
    have hb := round1_sum4
      ((rs.map (·.transport)).sum / amountTotal rs * 100)
      ((rs.map (·.food)).sum / amountTotal rs * 100)
      ((rs.map (·.data)).sum / amountTotal rs * 100)
      ((rs.map (·.other)).sum / amountTotal rs * 100)
      (by linarith [hs])
    calc |round1 ((rs.map (·.transport)).sum / amountTotal rs * 100) +
          (round1 ((rs.map (·.food)).sum / amountTotal rs * 100) +
            (round1 ((rs.map (·.data)).sum / amountTotal rs * 100) +
              (round1 ((rs.map (·.other)).sum / amountTotal rs * 100) + 0))) - 100|
        = |round1 ((rs.map (·.transport)).sum / amountTotal rs * 100) +
            round1 ((rs.map (·.food)).sum / amountTotal rs * 100) +
            round1 ((rs.map (·.data)).sum / amountTotal rs * 100) +
            round1 ((rs.map (·.other)).sum / amountTotal rs * 100) - 100| := by
          ring_nf
      _ ≤ 1/5 := hb
  · intro hz
    simp [percentages, hz, catAmounts]

/-- Witness for C2: `c2_percentages` applied to a one-row record set with
amounts 10, 20, 30, 40 (total 100) and to the all-zero row. -/
theorem c2_percentages_witness :
    |((percentages [⟨0, 10, 20, 30, 40⟩]).map (fun o => o.getD 0)).sum - 100| ≤ 1/5 ∧
    percentages [⟨0, 0, 0, 0, 0⟩] = [none, none, none, none] :=
  ⟨(c2_percentages [⟨0, 10, 20, 30, 40⟩]).1 (by norm_num [amountTotal, catAmounts]),
   (c2_percentages [⟨0, 0, 0, 0, 0⟩]).2 (by norm_num [amountTotal, catAmounts])⟩

/-- Line 311: `period_duration = (pd.to_datetime(end) - pd.to_datetime(start)).days`
(`3_Analytics.py` line 311). -/
def period_duration (start stop : ℤ) : ℤ := stop - start

/-- Line 312: `prev_period_start = pd.to_datetime(start) - pd.Timedelta(days=period_duration)`
(line 312). -/
def prev_period_start (start stop : ℤ) : ℤ := start - period_duration start stop

/-- Line 313: `prev_period_end = pd.to_datetime(start) - pd.Timedelta(days=1)`
(line 313). -/
def prev_period_end (start : ℤ) : ℤ := start - 1

/-- Lines 320-321: `spend_change_pct = (spend_change / prev_period_spend * 100) if
prev_period_spend > 0 else 0` (lines 320-321), with
`spend_change = total_spend - prev_period_spend`. -/
def spend_change_pct (total_spend prev_period_spend : ℚ) : ℚ :=
  if prev_period_spend > 0 then
    (total_spend - prev_period_spend) / prev_period_spend * 100
  else 0

/-- Modelled from the spec: the length of an inclusive day window
`[a, b]` — the number of calendar days `d` with `a ≤ d ≤ b`.  This is the
spec's notion of "window length", used to compare the code's previous
window against "a window of length identical to the current window". -/
def inclusiveDayCount (a b : ℤ) : ℤ := b - a + 1

/-- Claim C4 as stated is false on the code: for the current window
[day 0, day 2] (three days inclusive), the previous window is
[day −2, day −1] — only two days, not a window of identical length. -/
theorem c4_counterexample :
    inclusiveDayCount (prev_period_start 0 2) (prev_period_end 0) ≠
      inclusiveDayCount 0 2 := by decide

/-- Claim C4, amended: the previous window ends the day before the
current window's start, but its inclusive length is `end − start` days —
one day shorter than the inclusive current window (`end − start + 1`
days); `spend_change_pct` is 0 whenever the previous total is ≤ 0. -/
theorem c4_prev_window :
    (∀ start stop : ℤ, prev_period_end start = start - 1 ∧
      inclusiveDayCount (prev_period_start start stop) (prev_period_end start) =
        period_duration start stop ∧
      inclusiveDayCount (prev_period_start start stop) (prev_period_end start) =
        inclusiveDayCount start stop - 1) ∧
    (∀ t p : ℚ, p ≤ 0 → spend_change_pct t p = 0) := by
  constructor
  · intro start stop
    refine ⟨rfl, ?_, ?_⟩ <;>
      simp only [inclusiveDayCount, prev_period_start, prev_period_end,
        period_duration] <;> ring
  · intro t p hp
    simp only [spend_change_pct, if_neg (not_lt.mpr hp)]

/-- Witness for C4: `c4_prev_window` applied at the window [0, 2] and at
a zero previous total. -/
theorem c4_prev_window_witness :
    inclusiveDayCount (prev_period_start 0 2) (prev_period_end 0) =
      inclusiveDayCount 0 2 - 1 ∧
    spend_change_pct 500 0 = 0 :=
  ⟨(c4_prev_window.1 0 2).2.2, c4_prev_window.2 500 0 le_rfl⟩

/-- The daily-entry submit handler (`pages/1_Daily_Entry.py` lines
39-58): read all rows (`worksheet.get_all_records()`), append the
submitted row (`pd.concat([df_existing, df_new], ignore_index=True)`),
then clear the worksheet and write the concatenated frame back.  The
worksheet state is its list of rows; the returned list is the state
written by `set_with_dataframe`. -/
def submitSave (ws : List ExpenseRecord) (d : ℤ) (t f dta o : ℚ) :
    List ExpenseRecord :=
  let df_existing := ws
  let df_new := [ExpenseRecord.mk d t f dta o]
  df_existing ++ df_new

/-- Claim C10: saving a daily expense entry leaves every previously
stored row unchanged and in its original order (the first `ws.length`
rows of the new state are exactly the old state), appends exactly the
submitted row at the end, and grows the table by exactly one row — the
clear-and-rewrite implementation has the net effect of a single append. -/
theorem c10_submit_is_append (ws : List ExpenseRecord) (d : ℤ)
    (t f dta o : ℚ) :
    (submitSave ws d t f dta o).take ws.length = ws ∧
    (submitSave ws d t f dta o).drop ws.length = [ExpenseRecord.mk d t f dta o] ∧
    (submitSave ws d t f dta o).length = ws.length + 1 := by
  refine ⟨?_, ?_, ?_⟩ <;>
    simp [submitSave]

/-- pandas `Series.max()` over a non-empty series; the 0 for the empty
series mirrors the `if not ... .empty else 0` guards at the call sites. -/
def listMax : List ℚ → ℚ
  | [] => 0
  | x :: xs => xs.foldl max x

/-- pandas `Series.min()` over a non-empty series (0 for the empty one,
as for `listMax`). -/
def listMin : List ℚ → ℚ
  | [] => 0
  | x :: xs => xs.foldl min x

/-- pandas `dt.dayofweek`: Monday = 0 … Sunday = 6; day 0 of this
embedding is a Monday. -/
def dayofweek (d : ℤ) : ℤ := d % 7

/-- The index of `daily_pattern = df.groupby(df['expense_date'].dt.dayofweek)['total'].mean()`
(`3_Analytics.py` line 85): the weekdays that occur in the frame, in
ascending order (pandas groupby sorts its keys). -/
def dowGroups (rs : List ExpenseRecord) : List ℤ :=
  [0, 1, 2, 3, 4, 5, 6].filter
    (fun w => rs.any (fun r => decide (dayofweek r.expense_date = w)))

/-- The values of `daily_pattern`: mean of `total` per occurring weekday. -/
def dowMeans (rs : List ExpenseRecord) : List ℚ :=
  (dowGroups rs).map (fun w =>
    mean ((rs.filter (fun r => decide (dayofweek r.expense_date = w))).map
      ExpenseRecord.total))

/-- Float translation of `daily_pattern.max() / daily_pattern.min() > 2`
(line 87).  When the denominator is 0 the float quotient is NaN (for a
zero numerator; every comparison with NaN is false) or ±infinity (for a
nonzero numerator; `+inf > 2` is true exactly when the numerator is
positive), so the comparison reduces to `0 < a`; otherwise the quotient
is exact. -/
def ratioGT2 (a b : ℚ) : Bool :=
  if b = 0 then decide (0 < a) else decide (2 < a / b)

/-- The peak-weekday branch of `detect_spending_patterns`
(`3_Analytics.py` lines 85-89): a pattern is appended exactly when
`len(daily_pattern) > 1 and daily_pattern.max() > 0` and
`daily_pattern.max() / daily_pattern.min() > 2`. -/
def peakEmitted (rs : List ExpenseRecord) : Bool :=
  decide (1 < (dowMeans rs).length) && decide (0 < listMax (dowMeans rs)) &&
    ratioGT2 (listMax (dowMeans rs)) (listMin (dowMeans rs))

/-- The two-record set refuting claim C5: 10 on Monday (day 0) and an
all-zero row on Tuesday (day 1), so the weekday means are [10, 0]. -/
def c5records : List ExpenseRecord :=
  [⟨0, 0, 10, 0, 0⟩, ⟨1, 0, 0, 0, 0⟩]

/-- Evaluation of the weekday means of `c5records`. -/
theorem c5_dowMeans_eval : dowMeans c5records = [10, 0] := by
  have hg : dowGroups c5records = [0, 1] := by decide
  rw [dowMeans, hg]
  norm_num [c5records, dayofweek, ExpenseRecord.total, List.filter, mean]

/-- Claim C5 as stated is false on the code: the guard checks
`daily_pattern.max() > 0`, not that the minimum is nonzero.  For weekday
means [10, 0] the minimum is 0, yet the check is not skipped: the float
quotient `10 / 0` is +infinity, `inf > 2` holds, and a peak-weekday
pattern is emitted. -/
theorem c5_counterexample :
    listMin (dowMeans c5records) = 0 ∧ peakEmitted c5records = true := by
  have hm := c5_dowMeans_eval
  constructor
  · rw [hm]; norm_num [listMin]
  · rw [peakEmitted, hm]
    norm_num [listMax, listMin, ratioGT2]

/-- Claim C5, amended: the peak-weekday check is governed by
`daily_pattern.max() > 0`, not by the minimum.  With more than one
weekday group and a minimum mean of 0: when the maximum mean is also 0
the check is skipped (no pattern, no division blow-up), but when the
maximum mean is positive the division by zero produces +infinity and a
peak-weekday pattern IS emitted (no exception is raised). -/
theorem c5_peak_guard (rs : List ExpenseRecord)
    (hlen : 1 < (dowMeans rs).length) (hmin : listMin (dowMeans rs) = 0) :
    (listMax (dowMeans rs) = 0 → peakEmitted rs = false) ∧
    (0 < listMax (dowMeans rs) → peakEmitted rs = true) := by
  constructor
  · intro hmax
    simp [peakEmitted, hmax]
  · intro hmax
    simp [peakEmitted, hlen, hmax, ratioGT2, hmin]

/-- Witness for C5: `c5_peak_guard` applied to the concrete record set
with weekday means [4, 0]. -/
theorem c5_peak_guard_witness :
    peakEmitted [⟨0, 0, 4, 0, 0⟩, ⟨1, 0, 0, 0, 0⟩] = true :=
  (c5_peak_guard [⟨0, 0, 4, 0, 0⟩, ⟨1, 0, 0, 0, 0⟩]
    (by
      have hg : dowGroups [⟨0, 0, 4, 0, 0⟩, ⟨1, 0, 0, 0, 0⟩] = [0, 1] := by decide
      rw [dowMeans, hg]; norm_num)
    (by
      have hg : dowGroups [⟨0, 0, 4, 0, 0⟩, ⟨1, 0, 0, 0, 0⟩] = [0, 1] := by decide
      rw [dowMeans, hg]
      norm_num [dayofweek, ExpenseRecord.total, List.filter, mean, listMin])).2
    (by
      have hg : dowGroups [⟨0, 0, 4, 0, 0⟩, ⟨1, 0, 0, 0, 0⟩] = [0, 1] := by decide
      rw [dowMeans, hg]
      norm_num [dayofweek, ExpenseRecord.total, List.filter, mean, listMax])

/-- Line 300: `current_week_start = pd.to_datetime("today") - pd.Timedelta(days=pd.to_datetime("today").weekday())`
(`3_Analytics.py` line 300): the Monday of the current week, a function
of the wall clock, not of the query inputs. -/
def weekStart (today : ℤ) : ℤ := today - dayofweek today

/-- Sum `weekly_spend` (lines 302-306): total over the rows of the filtered
frame falling in the current week `[current_week_start, current_week_start + 6]`. -/
def weeklySpend (rs : List ExpenseRecord) (today : ℤ) : ℚ :=
  ((rs.filter (fun r =>
    decide (weekStart today ≤ r.expense_date ∧
      r.expense_date ≤ weekStart today + 6))).map ExpenseRecord.total).sum

/-- The current-week burn-rate metric of the dashboard (lines 300-307) as
a function of the records, the query range, the weekly budget — and the
current date, which the code reads from the wall clock. -/
def burnRateMetric (records : List ExpenseRecord) (start stop : ℤ)
    (weekly_budget : ℚ) (today : ℤ) : ℚ :=
  burn_rate (weeklySpend (filterRange records start stop) today) weekly_budget

/-- Claim C9 as stated is false on the code: the current-week burn rate
is not a function of the records, budgets, date range, weekly budget and
sensitivity alone — it also depends on the wall-clock date.  With one
expense of 10 on day 0 (a Monday), range [0, 0] and budget 100, an
invocation on day 0 reports a burn rate of 10 while an invocation on
day 7 (the following Monday, all other inputs identical) reports 0. -/
theorem c9_counterexample :
    burnRateMetric [⟨0, 10, 0, 0, 0⟩] 0 0 100 0 ≠
      burnRateMetric [⟨0, 10, 0, 0, 0⟩] 0 0 100 7 := by
  have h0 : burnRateMetric [⟨0, 10, 0, 0, 0⟩] 0 0 100 0 = 10 := by
    norm_num [burnRateMetric, weeklySpend, filterRange, weekStart, dayofweek,
      List.filter, ExpenseRecord.total, burn_rate]
  have h7 : burnRateMetric [⟨0, 10, 0, 0, 0⟩] 0 0 100 7 = 0 := by
    norm_num [burnRateMetric, weeklySpend, filterRange, weekStart, dayofweek,
      List.filter, ExpenseRecord.total, burn_rate]
  rw [h0, h7]
  norm_num

/-- Claim C9, amended: the derived metrics are a pure deterministic
function of the inputs together with the current date, and the current
date enters only through the Monday of its week — two invocations with
identical records, range and budget whose clock dates share the same week
start produce the same burn rate. -/
theorem c9_same_week_deterministic (records : List ExpenseRecord)
    (start stop : ℤ) (b : ℚ) (t1 t2 : ℤ) (h : weekStart t1 = weekStart t2) :
    burnRateMetric records start stop b t1 =
      burnRateMetric records start stop b t2 := by
  simp only [burnRateMetric, weeklySpend, h]

/-- Witness for C9: `c9_same_week_deterministic` applied on a Wednesday
and a Friday of the same week. -/
theorem c9_same_week_deterministic_witness :
    burnRateMetric [⟨2, 10, 0, 0, 0⟩] 0 9 100 2 =
      burnRateMetric [⟨2, 10, 0, 0, 0⟩] 0 9 100 4 :=
  c9_same_week_deterministic [⟨2, 10, 0, 0, 0⟩] 0 9 100 2 4 (by decide)

/-- The distinct expense dates of the frame in ascending order: the index
of `filtered.groupby("expense_date")["total"].sum()` (line 291). -/
def presentDates (rs : List ExpenseRecord) : List ℤ :=
  (gridDays rs).filter (fun d => rs.any (fun r => decide (r.expense_date = d)))

/-- Line 291: `daily_spends = filtered.groupby("expense_date")["total"].sum()`
(line 291): the per-date totals, one entry per date present. -/
def dailySpends (rs : List ExpenseRecord) : List ℚ :=
  (presentDates rs).map (dailyTotal rs)

/-- Sum `prev_period_spend` (lines 315-318): total over the rows of the
frame within the previous window.  The frame here is `expenses`, which
`load_data` has already filtered to `[start, end]`. -/
def prevPeriodSpend (expenses : List ExpenseRecord) (start stop : ℤ) : ℚ :=
  ((expenses.filter (fun r =>
    decide (prev_period_start start stop ≤ r.expense_date ∧
      r.expense_date ≤ prev_period_end start))).map ExpenseRecord.total).sum

/-- The aggregate the dashboard renders: the key numeric metrics (lines
290-325) and the two derived sequences used by the timeline and anomaly
tabs. -/
structure DashboardSnapshot where
  total_spend : ℚ
  avg_daily_spend : ℚ
  max_daily_spend : ℚ
  min_daily_spend : ℚ
  burn_rate : ℚ
  spend_change_pct : ℚ
  dailySeries : List (ℤ × ℚ)
  anomalies : List ℤ
deriving DecidableEq

/-- The analytics page as one function of its inputs plus the clock date.
`load_data` filters the records to `[start, end]`; the guard at lines
243-246 (`if expenses.empty: st.warning(...); st.stop()`) halts the page
before any metric is computed, modelled by `none`.  Otherwise the
metrics of lines 290-325 and the derived sequences are produced. -/
def runAnalytics (records : List ExpenseRecord) (start stop today : ℤ)
    (weekly_budget sensitivity : ℚ) : Option DashboardSnapshot :=
  let expenses := filterRange records start stop
  if expenses.isEmpty then none
  else
    let filtered := filterRange expenses start stop
    let daily := dailySpends filtered
    some {
      total_spend := (filtered.map ExpenseRecord.total).sum
      avg_daily_spend := if daily.isEmpty then 0 else mean daily
      max_daily_spend := listMax daily
      min_daily_spend := listMin daily
      burn_rate := burn_rate (weeklySpend filtered today) weekly_budget
      spend_change_pct := spend_change_pct
        ((filtered.map ExpenseRecord.total).sum)
        (prevPeriodSpend expenses start stop)
      dailySeries := (presentDates filtered).map
        (fun d => (d, dailyTotal filtered d))
      anomalies := anomalousDates filtered (threshold sensitivity)
    }

/-- Claim C1 as stated is false on the code: for a date range containing
zero expense records the page does not return a `DashboardSnapshot` with
zero fields — the `expenses.empty` guard emits a warning and halts via
`st.stop()` before any metric is computed (modelled by `none`). -/
theorem c1_counterexample : runAnalytics [] 0 10 0 100 5 = none := rfl

/-- Claim C1, amended: for every query whose date range contains zero
expense records the page emits a "no data" warning and halts (`st.stop`)
without computing any metric — no snapshot is produced and no exception
propagates; a snapshot is produced exactly when the filtered range is
non-empty. -/
theorem c1_empty_range_halts (records : List ExpenseRecord)
    (start stop today : ℤ) (b s : ℚ) :
    runAnalytics records start stop today b s = none ↔
      filterRange records start stop = [] := by
  rcases h : filterRange records start stop with _ | ⟨r, rs⟩ <;>
    simp [runAnalytics, h]
